import Mathlib

/-!
Shallow embedding of the scoring/validation engine of the
"Autoevaluación Transparencia Activa" Streamlit application (src/app.py).

Conventions of the embedding:
* Python `None` becomes `Option.none`; the answer strings keep their
  original Spanish spelling ("Sí", "No", "No es posible determinarlo",
  "No aplica").
* Python numbers are modelled over `ℚ`; Python's `round` (banker's
  rounding, round-half-to-even) is modelled exactly by `roundHalfEven`;
  the values produced by the scoring pipeline are small rationals for
  which the floating-point computation of the source and the rational
  computation agree.
* `_puntaje_item` can raise `KeyError` when a stored general answer is
  outside `VAL_GEN`'s keys; this is modelled with `Except Unit`.
* The mutable `st.session_state.answers` dict becomes the function type
  `Store := String → Option ItemR`, with `setStore` as dict assignment.
* `str.strip()` is modelled by `pyStrip` (dropping whitespace on both
  ends); `datetime.now()` is modelled by passing the formatted date
  string as a parameter.
-/

namespace Autoeval

/-- Embeds the `ItemR = namedtuple("ItemR", "scenario gen spec")` record of
src/app.py: `gen` is the (disponibilidad, actualización, completitud)
triple. -/
structure ItemR where
  scenario : ℕ
  gen : Option String × Option String × Option String
  spec : List String
deriving DecidableEq

/-- Embeds one record of the item catalog `estructura_materias_items.json`
as read into the pandas frame: numeric `ID`, `Ítem`, `Materia`, and the
`Peso Materia (%)` cell after `pd.to_numeric(errors="coerce")` (`none` for
blank or non-numeric cells, i.e. pandas NA). -/
structure Row where
  id : ℤ
  item : String
  materia : String
  pesoMateria : Option ℚ
deriving DecidableEq

/-- The session answer store `st.session_state.answers` as a map from
item name to record. -/
abbrev Store : Type := String → Option ItemR

/-- Dict assignment `answers[it] = v` (and, with `none`, dict removal). -/
def setStore (s : Store) (i : String) (v : Option ItemR) : Store :=
  fun j => if j = i then v else s j

/-- Python's `round` to an integer: round half to even. -/
def roundHalfEven (q : ℚ) : ℤ :=
  if q - ⌊q⌋ < 1/2 then ⌊q⌋
  else if 1/2 < q - ⌊q⌋ then ⌊q⌋ + 1
  else if ⌊q⌋ % 2 = 0 then ⌊q⌋ else ⌊q⌋ + 1

/-- Python's `round(x, 1)`: round half to even at one decimal. -/
def round1 (q : ℚ) : ℚ := ((roundHalfEven (q * 10) : ℤ) : ℚ) / 10

/-- The `VAL_GEN` mapping of src/app.py; `none` models a missing key
(looking it up raises `KeyError`). -/
def VAL_GEN : String → Option ℚ
  | "Sí" => some 100
  | "No" => some 0
  | "No es posible determinarlo" => some 25
  | _ => none

/-- The list `[v for v in r.gen if v is not None]`: the non-null general
answers, in tuple order (disponibilidad, actualización, completitud). -/
def genList (r : ItemR) : List String :=
  [r.gen.1, r.gen.2.1, r.gen.2.2].filterMap id

/-- The comprehension `[VAL_GEN[v] for v in …]`: `none` models the
`KeyError` raised on the first value that is not a `VAL_GEN` key. -/
def lookupAll : List String → Option (List ℚ)
  | [] => some []
  | v :: vs =>
    match VAL_GEN v, lookupAll vs with
    | some x, some xs => some (x :: xs)
    | _, _ => none

/-- The specific-indicator score of `_puntaje_item`:
`esp_apl = [v for v in r.spec if v != "No aplica"]` and
`esp_score = 100 if not esp_apl else round(sum(v == "Sí" for v in esp_apl) / len(esp_apl) * 100)`. -/
def espScore (spec : List String) : ℚ :=
  let esp_apl := spec.filter (fun v => v != "No aplica")
  if esp_apl.isEmpty then 100
  else ((roundHalfEven ((esp_apl.countP (fun v => v == "Sí") : ℚ) / (esp_apl.length : ℚ) * 100) : ℤ) : ℚ)

/-- Embeds `_puntaje_item` of src/app.py. `Except.error ()` marks the
`KeyError` raised when a non-null general answer is not a `VAL_GEN` key
(and the impossible `min([])` call). -/
def _puntaje_item (r : ItemR) : Except Unit (Option ℚ) :=
  if r.scenario = 2 ∨ r.scenario = 3 then Except.ok none
  else if r.scenario = 4 ∨ r.scenario = 5 then Except.ok (some 0)
  else
    match lookupAll (genList r) with
    | none => Except.error ()
    | some g_vals =>
      if g_vals.length < 3 then Except.ok none
      else
        match g_vals with
        | [] => Except.error ()
        | g :: gs =>
          Except.ok (some (round1 (gs.foldl min g * (0.75 : ℚ) + espScore r.spec * (0.25 : ℚ))))

/-- The value of `_puntaje_item` on records that do not raise; a raising
record is mapped to `none` (records stored through the UI never raise:
their general answers come from the radio options, which are `VAL_GEN`
keys). -/
def puntajeOk (r : ItemR) : Option ℚ :=
  match _puntaje_item r with
  | Except.ok v => v
  | Except.error _ => none

/-- Embeds `_valid_inputs` of src/app.py. -/
def _valid_inputs (esc : ℕ) (disp act comp : Option String) : Bool :=
  if esc ≠ 1 then true
  else if disp = none then false
  else if disp = some "No" then true
  else if act = none then false
  else if act = some "No" then true
  else comp.isSome

/-- Outcome of the save handler: the `st.warning` branch or the
`st.success` branch. -/
inductive SaveOutcome
  | warned
  | saved
deriving DecidableEq

/-- Embeds the `if submitted:` save handler of src/app.py: on gate failure
it warns and leaves the store untouched, otherwise it writes
`ItemR(esc, (disp, act, comp), spec_vals)` under the item key. -/
def save_handler (answers : Store) (it : String) (esc : ℕ)
    (disp act comp : Option String) (spec_vals : List String) : Store × SaveOutcome :=
  if _valid_inputs esc disp act comp then
    (setStore answers it (some ⟨esc, (disp, act, comp), spec_vals⟩), SaveOutcome.saved)
  else (answers, SaveOutcome.warned)

/-! The catalog pipeline of src/app.py (`load_struct` and the derived
module-level tables). -/

/-- Models Python `str.strip()` on the character list. -/
def pyStripChars (l : List Char) : List Char :=
  ((l.dropWhile Char.isWhitespace).reverse.dropWhile Char.isWhitespace).reverse

/-- Models Python `str.strip()`. -/
def pyStrip (s : String) : String := String.mk (pyStripChars s.data)

/-- The fixed misspelling substitution `df["Materia"].replace(...)` applied
at load time. -/
def fixMateria (s : String) : String :=
  if s = "Actos y resoluciones que tengas efectos sobre terceros"
  then "Actos y resoluciones con efectos sobre terceros" else s

/-- Stable insertion of a row into an ID-ascending list. -/
def insertByID (r : Row) : List Row → List Row
  | [] => [r]
  | x :: xs => if x.id < r.id then x :: insertByID r xs else r :: x :: xs

/-- Stable ascending sort by the numeric `ID` column
(`df.sort_values("ID")`; catalog IDs are distinct, so any sort agrees
with this one). -/
def sortByID : List Row → List Row
  | [] => []
  | x :: xs => insertByID x (sortByID xs)

/-- Embeds `load_struct`: normalize the misspelled category, sort by ID.
The resulting list is the module-level `ITEMS`. -/
def load_struct (rows : List Row) : List Row :=
  sortByID (rows.map (fun r => { r with materia := fixMateria r.materia }))

/-- The `ORDER_MAT` first-appearance loop of src/app.py, with its `_seen`
accumulator. -/
def orderMatAux : List Row → List String → List String
  | [], _ => []
  | r :: rest, seen =>
    if pyStrip r.materia ∈ seen then orderMatAux rest seen
    else pyStrip r.materia :: orderMatAux rest (pyStrip r.materia :: seen)

/-- The module-level `ORDER_MAT`: distinct stripped categories in
first-appearance order over the ID-sorted items. -/
def ORDER_MAT (items : List Row) : List String := orderMatAux items []

/-- The `MAT_TO_ITEMS` defaultdict: the item names of a (stripped)
materia, in catalog order (`[]` for an unknown materia). -/
def MAT_TO_ITEMS (items : List Row) (m : String) : List String :=
  (items.filter (fun r => pyStrip r.materia == m)).map (fun r => r.item)

/-- First-appearance deduplication of a list of strings (the spec's
"distinct values in first-appearance order"). -/
def dedupKeep : List String → List String
  | [] => []
  | x :: xs => x :: dedupKeep (xs.filter (fun y => decide (y ≠ x)))
termination_by l => l.length
decreasing_by
  simp only [List.length_cons]
  exact Nat.lt_succ_of_le (List.length_filter_le _ _)

/-- The distinct raw `Materia` keys of `df.groupby("Materia")` (the
key order is immaterial below: the keys are only filtered and summed
over). -/
def matKeys (items : List Row) : List String := dedupKeep (items.map (fun r => r.materia))

/-- The `MAT_PESO` dict: first numeric `Peso Materia (%)` of each raw
materia group (`none` both for an unknown materia and for a group whose
cells are all NA, matching the `pd.notna` guard at the use site). -/
def MAT_PESO (items : List Row) (m : String) : Option ℚ :=
  (items.filter (fun r => r.materia == m)).findSome? (fun r => r.pesoMateria)

/-- The `item_sc` dict of `_calcular` as a lookup function: `none` both
for an unanswered item and for an answered item whose score is `None`
(matching the `item_sc.get(i) is not None` guard). -/
def itemScFun (answers : Store) : String → Option ℚ :=
  fun i => (answers i).bind puntajeOk

/-- The `mat_sc` dict of `_calcular`: for each `ORDER_MAT` key, the
rounded mean of the non-null scores of the materia's items. -/
def matScOf (items : List Row) (isc : String → Option ℚ) : String → Option ℚ :=
  fun m =>
    if m ∈ ORDER_MAT items then
      let nums := (MAT_TO_ITEMS items m).filterMap isc
      if nums.isEmpty then none else some (round1 (nums.sum / (nums.length : ℚ)))
    else none

/-- The `glob` computation of `_calcular`: weighted mean over the
weighted-and-scored materias when any exist, else unweighted mean of the
non-null materia scores, else 0. -/
def globOf (items : List Row) (msc : String → Option ℚ) : ℚ :=
  let pesos := (matKeys items).filter (fun m => (MAT_PESO items m).isSome && (msc m).isSome)
  if pesos.isEmpty then
    let vals := (ORDER_MAT items).filterMap msc
    if vals.isEmpty then 0 else round1 (vals.sum / (vals.length : ℚ))
  else
    round1 ((pesos.map (fun m => ((msc m).getD 0) * ((MAT_PESO items m).getD 0))).sum
      / (pesos.map (fun m => (MAT_PESO items m).getD 0)).sum)

/-- Embeds `_calcular` of src/app.py: item scores, materia scores and the
global score. -/
def _calcular (items : List Row) (answers : Store) :
    (String → Option ℚ) × (String → Option ℚ) × ℚ :=
  (itemScFun answers, matScOf items (itemScFun answers),
    globOf items (matScOf items (itemScFun answers)))

/-- The `[(m, mat_sc[m]) for m in ORDER_MAT]` rows of the materias table
of the exported report. -/
def matTable (items : List Row) (msc : String → Option ℚ) : List (String × Option ℚ) :=
  (ORDER_MAT items).map (fun m => (m, msc m))

/-- The sequence of materias visited by the non-conformity section of the
report (`for m in ORDER_MAT: if m not in infr: continue`), given the
membership test of the `infr` dict. -/
def infrOrder (items : List Row) (present : String → Bool) : List String :=
  (ORDER_MAT items).filter present

/-- Lexicographic comparison on code points, used only to state that the
category order is not alphabetical. -/
def lexLe : List Char → List Char → Bool
  | [], _ => true
  | _ :: _, [] => false
  | a :: as, b :: bs =>
    if a.toNat < b.toNat then true
    else if b.toNat < a.toNat then false
    else lexLe as bs

/-- Alphabetical (code-point lexicographic) comparison of strings. -/
def alphaLe (a b : String) : Bool := lexLe a.data b.data

/-- The export filename built by `_export` — the f-string
interpolating the raw organization name and the date formatted as
YYYYMMDD — with the formatted date passed as a parameter. -/
def fname (org date : String) : String :=
  "Reporte_TA_" ++ org ++ "_" ++ date ++ ".docx"

/-! The form logic of src/app.py (radio defaults and record
construction). -/

/-- Embeds `_safe_idx` of src/app.py (the default argument is always 0 at
the call sites). -/
def _safe_idx {α : Type} [DecidableEq α] (options : List α) (value : Option α) : ℕ :=
  match value with
  | some v => if v ∈ options then options.indexOf v else 0
  | none => 0

/-- The value returned by a rendered `st.radio` when the user keeps the
default selection: the option at the `_safe_idx` default index. -/
def radioSel (options : List String) (prevVal : Option String) : String :=
  options.getD (_safe_idx options prevVal) ""

/-- The scenario codes `list(ESC_D)`. -/
def ESC_LIST : List ℕ := [1, 2, 3, 4, 5]

/-- The default value of the i-th specific-indicator radio on re-opening:
`radios.index(prev.spec[i]) if (prev and i < len(prev.spec)) else 0`
(a stored value outside the options would raise in Python; the theorems
only use this under the stored-domain hypothesis). -/
def specDefaultVal (prev : Option ItemR) (i : ℕ) : String :=
  match prev with
  | some p =>
    if i < p.spec.length then
      (["Sí", "No", "No aplica"]).getD ((["Sí", "No", "No aplica"]).indexOf (p.spec.getD i "")) ""
    else "Sí"
  | none => "Sí"

/-- The record displayed (and submitted) by the form when the item is
re-opened and the user keeps every default: scenario radio defaults to the
stored scenario, the general radios to the stored general answers (each
rendered only when reachable), the specific radios to the stored specific
answers. -/
def form_fill (lista : List String) (prev : Option ItemR) : ItemR :=
  let esc := ESC_LIST.getD (_safe_idx ESC_LIST (prev.map (fun p => p.scenario))) 1
  if esc = 1 then
    let disp := radioSel ["Sí", "No"] (prev.bind (fun p => p.gen.1))
    let act : Option String :=
      if disp = "Sí" then some (radioSel ["Sí", "No"] (prev.bind (fun p => p.gen.2.1))) else none
    let comp : Option String :=
      if disp = "Sí" ∧ act = some "Sí" then
        some (radioSel ["Sí", "No", "No es posible determinarlo"] (prev.bind (fun p => p.gen.2.2)))
      else none
    let spec_vals : List String :=
      if disp = "Sí" ∧ act = some "Sí" ∧ comp.isSome then
        (List.range lista.length).map (specDefaultVal prev)
      else []
    ⟨esc, (some disp, act, comp), spec_vals⟩
  else ⟨esc, (none, none, none), []⟩

/-- The shape of every record the form can submit: scenario from the five
codes; for scenario ≠ 1 no general answers and no specific answers; for
scenario 1 the branching renders the general radios progressively and the
specific radios (one per catalog indicator) only on the fully-Yes path. -/
def FormShaped (lista : List String) (r : ItemR) : Prop :=
  r.scenario ∈ ESC_LIST ∧
  (r.scenario ≠ 1 → r.gen = (none, none, none) ∧ r.spec = []) ∧
  (r.scenario = 1 →
    (r.gen.1 = some "Sí" ∨ r.gen.1 = some "No") ∧
    (r.gen.1 = some "No" → r.gen.2.1 = none ∧ r.gen.2.2 = none ∧ r.spec = []) ∧
    (r.gen.1 = some "Sí" →
      (r.gen.2.1 = some "Sí" ∨ r.gen.2.1 = some "No") ∧
      (r.gen.2.1 = some "No" → r.gen.2.2 = none ∧ r.spec = []) ∧
      (r.gen.2.1 = some "Sí" →
        (r.gen.2.2 = some "Sí" ∨ r.gen.2.2 = some "No"
          ∨ r.gen.2.2 = some "No es posible determinarlo")
        ∧ r.spec.length = lista.length
        ∧ ∀ v ∈ r.spec, v ∈ (["Sí", "No", "No aplica"] : List String))))

/-- One user interaction with the form: the radio selections actually
chosen (each radio, when rendered, returns one of its options). -/
structure Choices where
  esc : ℕ
  disp : String
  act : String
  comp : String
  spec : ℕ → String

/-- Every selection is one of the options offered by the corresponding
radio. -/
def ChoicesValid (ch : Choices) : Prop :=
  ch.esc ∈ ESC_LIST ∧ ch.disp ∈ (["Sí", "No"] : List String) ∧
  ch.act ∈ (["Sí", "No"] : List String) ∧
  ch.comp ∈ (["Sí", "No", "No es posible determinarlo"] : List String) ∧
  ∀ i, ch.spec i ∈ (["Sí", "No", "No aplica"] : List String)

/-- The record built by the form body (lines 296–323 of src/app.py) from
the selections: `disp`, `act`, `comp` start as `None` and are assigned
only when the corresponding radio is rendered; `spec_vals` collects one
answer per catalog indicator only on the fully-Yes path. -/
def form_submit (lista : List String) (ch : Choices) : ItemR :=
  if ch.esc = 1 then
    let disp := ch.disp
    let act : Option String := if disp = "Sí" then some ch.act else none
    let comp : Option String := if disp = "Sí" ∧ act = some "Sí" then some ch.comp else none
    let spec_vals : List String :=
      if disp = "Sí" ∧ act = some "Sí" ∧ comp.isSome then
        (List.range lista.length).map ch.spec
      else []
    ⟨ch.esc, (some disp, act, comp), spec_vals⟩
  else ⟨ch.esc, (none, none, none), []⟩

/-- The stores reachable in a session: the empty store, and any store
obtained from a reachable one by submitting the form for some item with
some valid selections (`lista it` is the item's specific-indicator
question list, the `IND_ESP` lookup of the item's key with default `[]`). -/
inductive Reachable (lista : String → List String) : Store → Prop
  | empty : Reachable lista (fun _ => none)
  | save (s : Store) (it : String) (ch : Choices) (hs : Reachable lista s)
      (hch : ChoicesValid ch) :
      Reachable lista
        (save_handler s it (form_submit (lista it) ch).scenario
          (form_submit (lista it) ch).gen.1 (form_submit (lista it) ch).gen.2.1
          (form_submit (lista it) ch).gen.2.2 (form_submit (lista it) ch).spec).1

/-- The claimed invariant of every stored record: the specific list never
exceeds the item's indicator list; it is non-empty only on the scenario-1
fully-Yes path; otherwise the unreached general slots are null and the
specific list empty. -/
def SpecInvariant (lst : List String) (r : ItemR) : Prop :=
  r.spec.length ≤ lst.length ∧
  (r.spec ≠ [] →
    r.scenario = 1 ∧ r.gen.1 = some "Sí" ∧ r.gen.2.1 = some "Sí" ∧ r.gen.2.2.isSome) ∧
  (r.scenario ≠ 1 → r.gen.1 = none ∧ r.gen.2.1 = none ∧ r.gen.2.2 = none ∧ r.spec = []) ∧
  (r.gen.1 = some "No" → r.gen.2.1 = none ∧ r.gen.2.2 = none ∧ r.spec = []) ∧
  (r.gen.2.1 = some "No" → r.gen.2.2 = none ∧ r.spec = [])

/-! Spec-side definitions (restating the specification's words, to be
compared against the source-side definitions above). -/

/-- Restates the spec's general-answer mapping: Yes=100, No=0,
"Cannot be determined"=25 (in the source's Spanish spellings). -/
def genMapC1 : String → Option ℚ
  | "Sí" => some 100
  | "No" => some 0
  | "No es posible determinarlo" => some 25
  | _ => none

/-- Restates the spec's specific-indicator score: exclude
"Not applicable" answers; if none remain the score is 100, else
round(100 × count(Yes) / count(applicable)). -/
def specificScoreC1 (spec : List String) : ℚ :=
  let applicable := spec.filter (fun v => v != "No aplica")
  if applicable.isEmpty then 100
  else ((roundHalfEven (100 * ((applicable.filter (fun v => v == "Sí")).length : ℚ) / (applicable.length : ℚ)) : ℤ) : ℚ)

/-- Restates the claimed scenario-1 item score: with all three general
answers non-null, generalScore is the min of the mapped values and the
result is round(generalScore × 0.75 + specificScore × 0.25, 1 decimal);
with fewer than three non-null general answers the result is null. -/
def scoreItemC1 (r : ItemR) : Option ℚ :=
  match r.gen with
  | (some a, some b, some c) =>
    match genMapC1 a, genMapC1 b, genMapC1 c with
    | some x, some y, some z =>
      some (round1 (min x (min y z) * (0.75 : ℚ) + specificScoreC1 r.spec * (0.25 : ℚ)))
    | _, _, _ => none
  | _ => none

/-- A general-answer slot is either unanswered or holds one of the three
enumerated answers (the only values the UI radio can produce). -/
def GenDomOk : Option String → Prop
  | none => True
  | some s => s ∈ (["Sí", "No", "No es posible determinarlo"] : List String)

instance : (o : Option String) → Decidable (GenDomOk o)
  | none => Decidable.isTrue trivial
  | some s => inferInstanceAs (Decidable (s ∈ _))

/-- Restates the claimed category score: the rounded mean of the
category's non-null item scores, null when there is none. -/
def catScoreSpec (items : List Row) (answers : Store) : String → Option ℚ :=
  fun c =>
    if c ∈ matKeys items then
      let scores := (items.filter (fun r => r.materia == c)).filterMap
        (fun r => itemScFun answers r.item)
      if scores.isEmpty then none else some (round1 (scores.sum / (scores.length : ℚ)))
    else none

/-- Restates the spec's category weight: the first numeric weight value
found for the category in source data. -/
def catWeightSpec (items : List Row) (c : String) : Option ℚ :=
  (items.filter (fun r => r.materia == c)).findSome? (fun r => r.pesoMateria)

/-- Restates the claimed global score: restricted to categories with both
a defined numeric weight and a non-null category score, the weighted mean
when that set is non-empty; otherwise the unweighted mean of the non-null
category scores, or 0 when none exists. -/
def globSpec (items : List Row) (answers : Store) : ℚ :=
  let weighted := (matKeys items).filter
    (fun c => (catWeightSpec items c).isSome && (catScoreSpec items answers c).isSome)
  if weighted.isEmpty then
    let vals := (matKeys items).filterMap (catScoreSpec items answers)
    if vals.isEmpty then 0 else round1 (vals.sum / (vals.length : ℚ))
  else
    round1 ((weighted.map (fun c => ((catScoreSpec items answers c).getD 0) * ((catWeightSpec items c).getD 0))).sum
      / (weighted.map (fun c => (catWeightSpec items c).getD 0)).sum)

/-- Restates the claimed category order: the distinct (stripped) category
values in first-appearance order when the items are traversed by
ascending numeric ID from the source data. -/
def categoryOrderSpec (rows : List Row) : List String :=
  dedupKeep ((load_struct rows).map (fun r => pyStrip r.materia))

/-! Concrete inputs used by witnesses. -/

/-- Specific-indicator lookup used by the claim-9 witness. -/
def listaW : String → List String := fun _ => ["P1"]

/-- Choices used by the claim-9 witness. -/
def chW : Choices := ⟨1, "Sí", "Sí", "Sí", fun _ => "Sí"⟩

/-- Store obtained by one valid save from the empty store, used by the
claim-9 witness. -/
def storeW : Store :=
  (save_handler (fun _ => none) "a" (form_submit (listaW "a") chW).scenario
    (form_submit (listaW "a") chW).gen.1 (form_submit (listaW "a") chW).gen.2.1
    (form_submit (listaW "a") chW).gen.2.2 (form_submit (listaW "a") chW).spec).1

/-! Helper lemmas. -/

theorem genDom_cases {o : Option String} (h : GenDomOk o) :
    o = none ∨ o = some "Sí" ∨ o = some "No" ∨ o = some "No es posible determinarlo" := by
  cases o with
  | none => exact Or.inl rfl
  | some s =>
    have h' : s = "Sí" ∨ s = "No" ∨ s = "No es posible determinarlo" := by
      simpa [GenDomOk] using h
    rcases h' with rfl | rfl | rfl
    · exact Or.inr (Or.inl rfl)
    · exact Or.inr (Or.inr (Or.inl rfl))
    · exact Or.inr (Or.inr (Or.inr rfl))

theorem espScore_eq_specificScoreC1 (l : List String) : espScore l = specificScoreC1 l := by
  simp only [espScore, specificScoreC1, List.countP_eq_length_filter]
  by_cases h : (l.filter (fun v => v != "No aplica")).isEmpty
  · simp [h]
  · simp only [h, if_false]
    congr 2
    ring_nf

/-! Claim C1. -/

/-- C1: for a record with scenario 1, `_puntaje_item` maps each general
answer Yes↦100, No↦0, "Cannot be determined"↦25, takes the min of the
three as the general score, scores the specific indicators as 100 when
only "Not applicable" answers remain and round(100·count(Yes)/count(applicable))
otherwise, and returns round(general·0.75 + specific·0.25, 1 decimal);
with fewer than three non-null general answers it returns null. -/
theorem claim1_puntaje_item_scenario1 (r : ItemR) (hs : r.scenario = 1)
    (h1 : GenDomOk r.gen.1) (h2 : GenDomOk r.gen.2.1) (h3 : GenDomOk r.gen.2.2) :
    _puntaje_item r = Except.ok (scoreItemC1 r) := by
  obtain ⟨scen, ⟨o1, o2, o3⟩, sp⟩ := r
  dsimp only at hs h1 h2 h3
  subst hs
  rcases genDom_cases h1 with rfl | rfl | rfl | rfl <;>
    rcases genDom_cases h2 with rfl | rfl | rfl | rfl <;>
      rcases genDom_cases h3 with rfl | rfl | rfl | rfl <;>
        norm_num [_puntaje_item, genList, lookupAll, VAL_GEN, scoreItemC1, genMapC1,
          espScore_eq_specificScoreC1, min_def, List.foldl]

/-- Witness for C1 at the spec's own worked example: scenario 1, general
answers (Sí, Sí, Sí), specific answers [Sí, No, No aplica] give 87.5. -/
theorem claim1_witness :
    _puntaje_item ⟨1, (some "Sí", some "Sí", some "Sí"), ["Sí", "No", "No aplica"]⟩
        = Except.ok (scoreItemC1 ⟨1, (some "Sí", some "Sí", some "Sí"), ["Sí", "No", "No aplica"]⟩)
      ∧ scoreItemC1 ⟨1, (some "Sí", some "Sí", some "Sí"), ["Sí", "No", "No aplica"]⟩
        = some (87.5 : ℚ) := by
  constructor
  · exact claim1_puntaje_item_scenario1 _ rfl (by decide) (by decide) (by decide)
  · have h0 : List.filter (fun v => v != "No aplica") ["Sí", "No", "No aplica"] = ["Sí", "No"] := by
      decide
    have h2 : List.filter (fun v => v == "Sí") ["Sí", "No"] = ["Sí"] := by decide
    simp only [scoreItemC1, genMapC1, specificScoreC1, h0, h2]
    norm_num [round1, roundHalfEven, min_def]

/-! Claim C3. -/

/-- C3: a record with scenario 2 or 3 scores null and contributes nothing
to `_calcular` (storing it is indistinguishable from removing its entry);
a record with scenario 4 or 5 scores exactly 0 — in both cases regardless
of the general and specific answers stored in the record. -/
theorem claim3_scenario_exclusions (r : ItemR) (items : List Row) (store : Store)
    (idt : String) :
    ((r.scenario = 2 ∨ r.scenario = 3) →
      _puntaje_item r = Except.ok none
      ∧ _calcular items (setStore store idt (some r)) = _calcular items (setStore store idt none))
    ∧ ((r.scenario = 4 ∨ r.scenario = 5) → _puntaje_item r = Except.ok (some 0)) := by
  constructor
  · intro h
    have hp : _puntaje_item r = Except.ok none := by
      rcases h with h | h <;> simp [_puntaje_item, h]
    refine ⟨hp, ?_⟩
    have hisc : itemScFun (setStore store idt (some r)) = itemScFun (setStore store idt none) := by
      funext i
      by_cases hi : i = idt
      · subst hi
        simp [itemScFun, setStore, puntajeOk, hp]
      · simp [itemScFun, setStore, hi]
    simp only [_calcular, hisc]
  · intro h
    rcases h with h | h <;> simp [_puntaje_item, h]

/-- Witness for C3: a scenario-2 record scores null and a scenario-4
record scores 0, via the claim applied at concrete records. -/
theorem claim3_witness :
    _puntaje_item ⟨2, (some "Sí", some "Sí", some "Sí"), ["Sí"]⟩ = Except.ok none
    ∧ _puntaje_item ⟨4, (some "No", none, none), ["No"]⟩ = Except.ok (some 0) :=
  ⟨((claim3_scenario_exclusions ⟨2, (some "Sí", some "Sí", some "Sí"), ["Sí"]⟩ []
      (fun _ => none) "a").1 (Or.inl rfl)).1,
   (claim3_scenario_exclusions ⟨4, (some "No", none, none), ["No"]⟩ []
      (fun _ => none) "a").2 (Or.inl rfl)⟩

/-! Claim C4. -/

/-- C4: the save gate accepts every input with scenario ≠ 1; for
scenario 1 it rejects when availability is null, accepts availability
"No", rejects availability "Sí" with null currency, accepts currency
"No", and with availability "Sí" and currency "Sí" accepts exactly when
completeness is non-null. -/
theorem claim4_valid_inputs_cases (esc : ℕ) (disp act comp : Option String) :
    (esc ≠ 1 → _valid_inputs esc disp act comp = true)
    ∧ (esc = 1 →
        (disp = none → _valid_inputs esc disp act comp = false)
        ∧ (disp = some "No" → _valid_inputs esc disp act comp = true)
        ∧ (disp = some "Sí" → act = none → _valid_inputs esc disp act comp = false)
        ∧ (disp = some "Sí" → act = some "No" → _valid_inputs esc disp act comp = true)
        ∧ (disp = some "Sí" → act = some "Sí" →
            (_valid_inputs esc disp act comp = true ↔ comp ≠ none))) := by
  constructor
  · intro h
    simp [_valid_inputs, h]
  · rintro rfl
    refine ⟨?_, ?_, ?_, ?_, ?_⟩
    · rintro rfl
      simp [_valid_inputs]
    · rintro rfl
      simp [_valid_inputs]
    · rintro rfl rfl
      simp [_valid_inputs]
    · rintro rfl rfl
      simp [_valid_inputs]
    · rintro rfl rfl
      simp [_valid_inputs, Option.isSome_iff_ne_none]

/-- Witness for C4 at one concrete input per enumerated case. -/
theorem claim4_witness :
    _valid_inputs 3 none none none = true
    ∧ _valid_inputs 1 none none none = false
    ∧ _valid_inputs 1 (some "No") none none = true
    ∧ _valid_inputs 1 (some "Sí") none none = false
    ∧ _valid_inputs 1 (some "Sí") (some "No") none = true
    ∧ (_valid_inputs 1 (some "Sí") (some "Sí") (some "Sí") = true
        ↔ (some "Sí" : Option String) ≠ none) :=
  ⟨(claim4_valid_inputs_cases 3 none none none).1 (by decide),
   ((claim4_valid_inputs_cases 1 none none none).2 rfl).1 rfl,
   ((claim4_valid_inputs_cases 1 (some "No") none none).2 rfl).2.1 rfl,
   ((claim4_valid_inputs_cases 1 (some "Sí") none none).2 rfl).2.2.1 rfl rfl,
   ((claim4_valid_inputs_cases 1 (some "Sí") (some "No") none).2 rfl).2.2.2.1 rfl rfl,
   ((claim4_valid_inputs_cases 1 (some "Sí") (some "Sí") (some "Sí")).2 rfl).2.2.2.2 rfl rfl⟩

/-! Claim C5. -/

/-- C5: a save attempt whose inputs fail the gate produces the
user-visible warning outcome and leaves the store completely unchanged
(no entry is created, overwritten or partially written). -/
theorem claim5_invalid_save_no_mutation (answers : Store) (it : String) (esc : ℕ)
    (disp act comp : Option String) (spec_vals : List String)
    (h : _valid_inputs esc disp act comp = false) :
    save_handler answers it esc disp act comp spec_vals = (answers, SaveOutcome.warned) := by
  simp [save_handler, h]

/-- Witness for C5: an incomplete scenario-1 attempt on the empty store. -/
theorem claim5_witness :
    save_handler (fun _ => none) "a" 1 none none none ["Sí"]
      = ((fun _ => none : Store), SaveOutcome.warned) :=
  claim5_invalid_save_no_mutation (fun _ => none) "a" 1 none none none ["Sí"] (by decide)

/-! Claim C10. -/

/-- C10: the accept/reject decision of the save handler depends only on
(scenario, availability, currency, completeness) — two attempts differing
only in their specific lists get the same outcome — and the gate accepts
any scenario-1 record with availability "Sí", currency "Sí" and non-null
completeness whatever the specific list contains. -/
theorem claim10_gate_ignores_specific (answers : Store) (it : String) (esc : ℕ)
    (disp act comp : Option String) (spec1 spec2 : List String) :
    (save_handler answers it esc disp act comp spec1).2
        = (save_handler answers it esc disp act comp spec2).2
    ∧ (comp ≠ none →
        _valid_inputs 1 (some "Sí") (some "Sí") comp = true
        ∧ (save_handler answers it 1 (some "Sí") (some "Sí") comp spec1).2
            = SaveOutcome.saved) := by
  constructor
  · by_cases h : _valid_inputs esc disp act comp <;> simp [save_handler, h]
  · intro h
    have hv : _valid_inputs 1 (some "Sí") (some "Sí") comp = true := by
      simp [_valid_inputs, Option.isSome_iff_ne_none, h]
    exact ⟨hv, by simp [save_handler, hv]⟩

/-- Witness for C10 at concrete differing specific lists. -/
theorem claim10_witness :
    (save_handler (fun _ => none) "a" 1 (some "Sí") (some "Sí") (some "No") ["Sí"]).2
        = (save_handler (fun _ => none) "a" 1 (some "Sí") (some "Sí") (some "No") ["No", "No aplica"]).2
    ∧ _valid_inputs 1 (some "Sí") (some "Sí") (some "No") = true
    ∧ (save_handler (fun _ => none) "a" 1 (some "Sí") (some "Sí") (some "No") ["Sí"]).2
        = SaveOutcome.saved := by
  have h := claim10_gate_ignores_specific (fun _ => none) "a" 1 (some "Sí") (some "Sí")
    (some "No") ["Sí"] ["No", "No aplica"]
  exact ⟨h.1, (h.2 (by decide)).1, (h.2 (by decide)).2⟩

/-! Claim C6. -/

/-- C6 counterexample: the export filename is built from the organization
name verbatim — for an organization name containing a slash and spaces the
filename contains them unchanged, so no sanitization (collapsing
non-alphanumeric runs to a single separator) takes place, and the prefix
is `Reporte_TA_`, not `Report_`. -/
theorem claim6_counterexample :
    fname "Dirección / Central" "20250101"
        = "Reporte_TA_Dirección / Central_20250101.docx"
    ∧ '/' ∈ (fname "Dirección / Central" "20250101").data
    ∧ ' ' ∈ (fname "Dirección / Central" "20250101").data := by
  refine ⟨rfl, ?_, ?_⟩ <;> decide

/-- C6 amended: the export filename is
`Reporte_TA_<org>_<YYYYMMDD>.docx` with the organization name inserted
verbatim (no sanitization of any kind). -/
theorem claim6_filename_amended (org date : String) :
    fname org date = "Reporte_TA_" ++ org ++ "_" ++ date ++ ".docx"
    ∧ (fname org date).data
        = "Reporte_TA_".data ++ org.data ++ "_".data ++ date.data ++ ".docx".data := by
  refine ⟨rfl, ?_⟩
  simp [fname, String.data_append]

/-! Category order: the seen-set loop agrees with first-appearance
deduplication. -/

theorem dedupKeep_cons (x : String) (xs : List String) :
    dedupKeep (x :: xs) = x :: dedupKeep (xs.filter (fun y => decide (y ≠ x))) := by
  rw [dedupKeep]

theorem orderMatAux_eq (l : List Row) (seen : List String) :
    orderMatAux l seen
      = dedupKeep ((l.map (fun r => pyStrip r.materia)).filter (fun m => decide (m ∉ seen))) := by
  induction l generalizing seen with
  | nil => simp [orderMatAux, dedupKeep]
  | cons r rest ih =>
    by_cases hm : pyStrip r.materia ∈ seen
    · rw [orderMatAux, if_pos hm, List.map_cons, List.filter_cons]
      simp only [hm, not_true_eq_false, decide_False, Bool.false_eq_true, if_false]
      exact ih seen
    · rw [orderMatAux, if_neg hm, List.map_cons, List.filter_cons]
      simp only [hm, not_false_eq_true, decide_True, if_true]
      rw [dedupKeep_cons, ih (pyStrip r.materia :: seen), List.filter_filter]
      congr 2
      apply List.filter_congr
      intro a _
      simp [List.mem_cons, not_or, Bool.and_comm]

theorem ORDER_MAT_eq_dedup (items : List Row) :
    ORDER_MAT items = dedupKeep (items.map (fun r => pyStrip r.materia)) := by
  rw [ORDER_MAT, orderMatAux_eq]
  congr 1
  simp

/-! Insertion sort by ID is ascending. -/

theorem mem_insertByID {x r : Row} {l : List Row} :
    x ∈ insertByID r l ↔ x = r ∨ x ∈ l := by
  induction l with
  | nil => simp [insertByID]
  | cons a as ih =>
    simp only [insertByID]
    by_cases h : a.id < r.id
    · simp only [if_pos h, List.mem_cons, ih]
      tauto
    · simp only [if_neg h, List.mem_cons]

theorem insertByID_pairwise {r : Row} {l : List Row}
    (hl : l.Pairwise (fun a b => a.id ≤ b.id)) :
    (insertByID r l).Pairwise (fun a b => a.id ≤ b.id) := by
  induction l with
  | nil => simp [insertByID]
  | cons a as ih =>
    rcases List.pairwise_cons.mp hl with ⟨ha, has⟩
    by_cases h : a.id < r.id
    · rw [insertByID, if_pos h]
      refine List.pairwise_cons.mpr ⟨?_, ih has⟩
      intro b hb
      rcases mem_insertByID.mp hb with rfl | hb
      · exact le_of_lt h
      · exact ha b hb
    · rw [insertByID, if_neg h]
      refine List.pairwise_cons.mpr ⟨?_, hl⟩
      intro b hb
      rcases List.mem_cons.mp hb with rfl | hb
      · exact le_of_not_lt h
      · exact le_trans (le_of_not_lt h) (ha b hb)

theorem sortByID_pairwise (l : List Row) :
    (sortByID l).Pairwise (fun a b => a.id ≤ b.id) := by
  induction l with
  | nil => simp [sortByID]
  | cons a as ih => exact insertByID_pairwise ih

/-! Claim C2. -/

/-- C2: over a catalog whose materia labels carry no surrounding
whitespace (so the source's `strip()` is the identity on them),
`_calcular` computes exactly the claimed aggregation: each category score
is the 1-decimal-rounded mean of the category's non-null item scores
(null when none exists); the global score is the weight-weighted mean
over the categories having both a defined numeric weight and a non-null
score when that set is non-empty, else the unweighted mean of the
non-null category scores, else 0. -/
theorem claim2_calcular_refines (items : List Row) (answers : Store)
    (ht : ∀ r ∈ items, pyStrip r.materia = r.materia) :
    matScOf items (itemScFun answers) = catScoreSpec items answers
    ∧ globOf items (matScOf items (itemScFun answers)) = globSpec items answers := by
  have hmap : items.map (fun r => pyStrip r.materia) = items.map (fun r => r.materia) :=
    List.map_congr_left ht
  have hOM : ORDER_MAT items = matKeys items := by
    rw [ORDER_MAT_eq_dedup, matKeys, hmap]
  have hfil : ∀ m : String,
      items.filter (fun r => pyStrip r.materia == m)
        = items.filter (fun r => r.materia == m) := by
    intro m
    exact List.filter_congr (fun r hr => by rw [ht r hr])
  have hmat : matScOf items (itemScFun answers) = catScoreSpec items answers := by
    funext m
    simp only [matScOf, catScoreSpec, MAT_TO_ITEMS, hOM, hfil, List.filterMap_map,
      Function.comp_def]
  have hw : MAT_PESO items = catWeightSpec items := rfl
  refine ⟨hmat, ?_⟩
  simp only [globOf, globSpec, hmat, hOM, hw]

/-- Witness for C2 at a concrete two-category catalog and a one-item
store. -/
theorem claim2_witness :
    (∀ r ∈ [(⟨1, "i1", "B", some 60⟩ : Row), ⟨2, "i2", "A", some 40⟩],
        pyStrip r.materia = r.materia)
    ∧ matScOf [(⟨1, "i1", "B", some 60⟩ : Row), ⟨2, "i2", "A", some 40⟩]
          (itemScFun (fun i => if i = "i1" then some ⟨4, (none, none, none), []⟩ else none))
        = catScoreSpec [(⟨1, "i1", "B", some 60⟩ : Row), ⟨2, "i2", "A", some 40⟩]
            (fun i => if i = "i1" then some ⟨4, (none, none, none), []⟩ else none)
    ∧ globOf [(⟨1, "i1", "B", some 60⟩ : Row), ⟨2, "i2", "A", some 40⟩]
          (matScOf [(⟨1, "i1", "B", some 60⟩ : Row), ⟨2, "i2", "A", some 40⟩]
            (itemScFun (fun i => if i = "i1" then some ⟨4, (none, none, none), []⟩ else none)))
        = globSpec [(⟨1, "i1", "B", some 60⟩ : Row), ⟨2, "i2", "A", some 40⟩]
            (fun i => if i = "i1" then some ⟨4, (none, none, none), []⟩ else none) := by
  have ht : ∀ r ∈ [(⟨1, "i1", "B", some 60⟩ : Row), ⟨2, "i2", "A", some 40⟩],
      pyStrip r.materia = r.materia := by
    intro r hr
    rcases List.mem_cons.mp hr with rfl | hr
    · rfl
    · rcases List.mem_cons.mp hr with rfl | hr
      · rfl
      · cases hr
  have h := claim2_calcular_refines [(⟨1, "i1", "B", some 60⟩ : Row), ⟨2, "i2", "A", some 40⟩]
    (fun i => if i = "i1" then some ⟨4, (none, none, none), []⟩ else none) ht
  exact ⟨ht, h.1, h.2⟩

/-! Claim C7. -/

/-- C7: the category sequence used by the outputs (the materias table
rows and the non-conformity grouping) is `ORDER_MAT`, which equals the
distinct stripped category values in first-appearance order when the
items are traversed by ascending numeric ID (the `load_struct` order is
ID-ascending); and it is not alphabetical: a catalog exists whose
category order violates the alphabetical relation. -/
theorem claim7_category_order :
    (∀ (rows : List Row) (msc : String → Option ℚ),
        (matTable (load_struct rows) msc).map Prod.fst = categoryOrderSpec rows)
    ∧ (∀ (rows : List Row) (present : String → Bool),
        infrOrder (load_struct rows) present = (categoryOrderSpec rows).filter present)
    ∧ (∀ rows : List Row, (load_struct rows).Pairwise (fun a b => a.id ≤ b.id))
    ∧ (∃ rows : List Row,
        ¬ (ORDER_MAT (load_struct rows)).Pairwise (fun a b => alphaLe a b = true)) := by
  refine ⟨?_, ?_, ?_, ?_⟩
  · intro rows msc
    simp only [matTable, List.map_map]
    have hid : (Prod.fst ∘ fun m => (m, msc m)) = @id String := rfl
    rw [hid, List.map_id]
    exact ORDER_MAT_eq_dedup (load_struct rows)
  · intro rows present
    rw [infrOrder, ORDER_MAT_eq_dedup]
    rfl
  · intro rows
    exact sortByID_pairwise _
  · refine ⟨[⟨1, "i1", "B", none⟩, ⟨2, "i2", "A", none⟩], ?_⟩
    intro h
    have hOM : ORDER_MAT (load_struct [⟨1, "i1", "B", none⟩, ⟨2, "i2", "A", none⟩])
        = ["B", "A"] := rfl
    rw [hOM] at h
    have h1 : alphaLe "B" "A" = true :=
      (List.pairwise_cons.mp h).1 "A" (List.mem_singleton.mpr rfl)
    exact absurd h1 (by decide)

/-! Claim C8. -/

theorem getD_indexOf_of_mem {v : String} {l : List String} (hv : v ∈ l) :
    l.getD (l.indexOf v) "" = v := by
  induction l with
  | nil => cases hv
  | cons a as ih =>
    by_cases h : a = v
    · subst h
      simp [List.indexOf_cons_self]
    · have hv' : v ∈ as := by
        rcases List.mem_cons.mp hv with h' | h'
        · exact absurd h'.symm h
        · exact h'
      rw [List.indexOf_cons]
      have hba : (a == v) = false := by simp [h]
      simp only [hba, cond_false, List.getD_cons_succ]
      exact ih hv'

theorem radioSel_mem {options : List String} {v : String} (hv : v ∈ options) :
    radioSel options (some v) = v := by
  rw [radioSel, _safe_idx, if_pos hv]
  exact getD_indexOf_of_mem hv

theorem specDefault_reproduce (lista : List String) (p : ItemR)
    (hlen : p.spec.length = lista.length)
    (hvals : ∀ v ∈ p.spec, v ∈ (["Sí", "No", "No aplica"] : List String)) :
    (List.range lista.length).map (specDefaultVal (some p)) = p.spec := by
  apply List.ext_getElem
  · simp [hlen]
  · intro i h1 h2
    simp only [List.getElem_map, List.getElem_range]
    have hi : i < p.spec.length := h2
    simp only [specDefaultVal, if_pos hi]
    rw [List.getD_eq_getElem _ _ hi]
    exact getD_indexOf_of_mem (hvals _ (List.getElem_mem hi))

/-- C8: a form-shaped record always passes the gate and is saved exactly
as submitted (the store maps the item to precisely the saved scenario,
general triple and specific list), and re-opening the item for edit
reproduces exactly the saved values as the form defaults. -/
theorem claim8_roundtrip (lista : List String) (store : Store) (it : String) (r : ItemR)
    (h : FormShaped lista r) :
    save_handler store it r.scenario r.gen.1 r.gen.2.1 r.gen.2.2 r.spec
        = (setStore store it (some r), SaveOutcome.saved)
    ∧ setStore store it (some r) it = some r
    ∧ form_fill lista (some r) = r := by
  obtain ⟨scen, ⟨o1, o2, o3⟩, sp⟩ := r
  obtain ⟨hmem, hne1, h1⟩ := h
  dsimp only at hmem hne1 h1 ⊢
  have hstore : setStore store it (some ⟨scen, (o1, o2, o3), sp⟩)
      = setStore store it (some ⟨scen, (o1, o2, o3), sp⟩) := rfl
  have hlook : ∀ v : Option ItemR, setStore store it v it = v := by
    intro v
    simp [setStore]
  have hmem' : scen = 1 ∨ scen = 2 ∨ scen = 3 ∨ scen = 4 ∨ scen = 5 := by
    simpa [ESC_LIST] using hmem
  rcases hmem' with rfl | rfl | rfl | rfl | rfl
  · -- scenario 1
    obtain ⟨hd, hno, hsi⟩ := h1 rfl
    rcases hd with hd | hd
    · -- availability Sí
      subst hd
      obtain ⟨ha, hano, hasi⟩ := hsi rfl
      rcases ha with ha | ha
      · -- currency Sí
        subst ha
        obtain ⟨hc, hlen, hvals⟩ := hasi rfl
        have hform : ∀ c : String, o3 = some c →
            radioSel ["Sí", "No", "No es posible determinarlo"] (some c) = c →
            form_fill lista (some ⟨1, (some "Sí", some "Sí", o3), sp⟩)
              = ⟨1, (some "Sí", some "Sí", o3), sp⟩ := by
          rintro c rfl hr
          have hbase : form_fill lista (some ⟨1, (some "Sí", some "Sí", some c), sp⟩)
              = ⟨1, (some "Sí", some "Sí",
                  some (radioSel ["Sí", "No", "No es posible determinarlo"] (some c))),
                  (List.range lista.length).map
                    (specDefaultVal (some ⟨1, (some "Sí", some "Sí", some c), sp⟩))⟩ := rfl
          rw [hbase, hr,
            specDefault_reproduce lista ⟨1, (some "Sí", some "Sí", some c), sp⟩ hlen hvals]
        rcases hc with hc | hc | hc <;>
          exact ⟨by rw [hc]; simp [save_handler, _valid_inputs], hlook _,
            hform _ hc (by rw [hc] at hc ⊢; exact radioSel_mem (by simp))⟩
      · -- currency No
        subst ha
        obtain ⟨h3', hsp⟩ := hano rfl
        subst h3'
        subst hsp
        exact ⟨by simp [save_handler, _valid_inputs], hlook _, rfl⟩
    · -- availability No
      subst hd
      obtain ⟨h2', h3', hsp⟩ := hno rfl
      subst h2'
      subst h3'
      subst hsp
      exact ⟨by simp [save_handler, _valid_inputs], hlook _, rfl⟩
  all_goals
    obtain ⟨hg, hsp⟩ := hne1 (by decide)
    obtain ⟨h1', h2', h3'⟩ : o1 = none ∧ o2 = none ∧ o3 = none := by
      simpa [Prod.ext_iff] using hg
    subst h1'
    subst h2'
    subst h3'
    subst hsp
    exact ⟨by simp [save_handler, _valid_inputs], hlook _, rfl⟩

/-- Witness for C8: a concrete saved record on the full scenario-1 path
is stored and re-displayed unchanged. -/
theorem claim8_witness :
    save_handler (fun _ => none) "a" 1 (some "Sí") (some "Sí") (some "No") ["No aplica"]
        = (setStore (fun _ => none) "a"
            (some ⟨1, (some "Sí", some "Sí", some "No"), ["No aplica"]⟩), SaveOutcome.saved)
    ∧ setStore (fun _ => none) "a"
        (some ⟨1, (some "Sí", some "Sí", some "No"), ["No aplica"]⟩) "a"
        = some ⟨1, (some "Sí", some "Sí", some "No"), ["No aplica"]⟩
    ∧ form_fill ["P1"] (some ⟨1, (some "Sí", some "Sí", some "No"), ["No aplica"]⟩)
        = ⟨1, (some "Sí", some "Sí", some "No"), ["No aplica"]⟩ :=
  claim8_roundtrip ["P1"] (fun _ => none) "a"
    ⟨1, (some "Sí", some "Sí", some "No"), ["No aplica"]⟩
    ⟨by decide, fun hx => absurd rfl hx, fun _ =>
      ⟨Or.inl rfl, fun hx => absurd hx (by decide), fun _ =>
        ⟨Or.inl rfl, fun hx => absurd hx (by decide), fun _ =>
          ⟨Or.inr (Or.inl rfl), rfl, by decide⟩⟩⟩⟩

/-! Claim C9. -/

theorem form_submit_invariant (lst : List String) (ch : Choices) (h : ChoicesValid ch) :
    SpecInvariant lst (form_submit lst ch) := by
  obtain ⟨hesc, hdisp, hact, hcomp, hspec⟩ := h
  by_cases h1 : ch.esc = 1
  · have hd : ch.disp = "Sí" ∨ ch.disp = "No" := by simpa using hdisp
    have ha : ch.act = "Sí" ∨ ch.act = "No" := by simpa using hact
    rcases hd with hd | hd <;> rcases ha with ha | ha <;>
      simp [form_submit, SpecInvariant, h1, hd, ha]
  · simp [form_submit, SpecInvariant, h1]

/-- C9: every record ever stored in a reachable session store satisfies
the invariant: its specific list is no longer than the item's indicator
list and is non-empty only on the scenario-1 path with availability "Sí",
currency "Sí" and non-null completeness; in every other case the
unreached general slots are null and the specific list is empty. -/
theorem claim9_store_invariant (lista : String → List String) (s : Store)
    (hs : Reachable lista s) :
    ∀ it r, s it = some r → SpecInvariant (lista it) r := by
  induction hs with
  | empty =>
    intro it r h
    exact Option.noConfusion h
  | save s1 it1 ch hs1 hch ih =>
    intro it' r hr
    by_cases hv : _valid_inputs (form_submit (lista it1) ch).scenario
        (form_submit (lista it1) ch).gen.1 (form_submit (lista it1) ch).gen.2.1
        (form_submit (lista it1) ch).gen.2.2 = true
    · rw [save_handler, if_pos hv] at hr
      by_cases hit : it' = it1
      · subst hit
        simp only [setStore, if_pos rfl] at hr
        injection hr with hr
        subst hr
        exact form_submit_invariant (lista it') ch hch
      · simp only [setStore, if_neg hit] at hr
        exact ih it' r hr
    · rw [save_handler, if_neg hv] at hr
      exact ih it' r hr

/-- Witness for C9: after one valid save from the empty store, the stored
record satisfies the invariant. -/
theorem claim9_witness :
    storeW "a" = some (form_submit (listaW "a") chW)
    ∧ SpecInvariant (listaW "a") (form_submit (listaW "a") chW) := by
  have hreach : Reachable listaW storeW :=
    Reachable.save (fun _ => none) "a" chW Reachable.empty
      ⟨by decide, by decide, by decide, by decide,
        fun _ => List.mem_cons_self "Sí" ["No", "No aplica"]⟩
  exact ⟨rfl, claim9_store_invariant listaW storeW hreach "a"
    (form_submit (listaW "a") chW) rfl⟩

end Autoeval
